import Mathlib

/-!
Shallow embedding of the GST computation core of the repository
(src/newserver.js and src/server.js): record normalization, tax aggregation,
business-pattern analysis, compliance checking, compliance-plan composition and
TF-IDF based knowledge retrieval.  JavaScript numbers are modelled as exact
rationals; JavaScript runtime behaviours (falsy coercion of `||`, `parseFloat`
failure, `Array.prototype.reduce` on an empty array, `Object.keys` ordering,
integer division of `Date` months) are modelled explicitly by small helper
functions named `js...`.
-/

namespace GstApp

/-- A raw uploaded row after CSV decoding.  The string-valued numeric fields
`amount` and `taxRate` are represented by their JavaScript `parseFloat` result:
`none` for `NaN` (field missing or unparseable), `some q` for a successfully
parsed decimal.  `state` and `product` are `none` when the column is absent. -/
structure RawSale where
  amount : Option ℚ
  taxRate : Option ℚ
  state : Option String
  product : Option String
deriving Repr, DecidableEq

/-- JavaScript `x || d` applied to a number that may be `NaN`: both `NaN` and
`0` are falsy, so the default is taken for either. -/
def jsOrNum (x : Option ℚ) (d : ℚ) : ℚ :=
  match x with
  | none => d
  | some q => if q = 0 then d else q

/-- JavaScript `s || d` applied to a string that may be `undefined`: both
`undefined` and the empty string are falsy. -/
def jsOrStr (x : Option String) (d : String) : String :=
  match x with
  | none => d
  | some s => if s = "" then d else s

/-- `sub` occurs at the front of `l`. -/
def leadsWith [DecidableEq α] : List α → List α → Bool
  | [], _ => true
  | _ :: _, [] => false
  | a :: as, b :: bs => a = b && leadsWith as bs

/-- `sub` occurs contiguously somewhere inside `l`. -/
def hasSub [DecidableEq α] (sub : List α) : List α → Bool
  | [] => leadsWith sub []
  | a :: as => leadsWith sub (a :: as) || hasSub sub as

/-- JavaScript `String.prototype.includes`. -/
def jsIncludes (s sub : String) : Bool :=
  hasSub sub.data s.data

/-- JavaScript `String.prototype.toLowerCase` (ASCII range, as `Char.toLower`). -/
def jsToLower (s : String) : String :=
  ⟨s.data.map Char.toLower⟩

/-- src/newserver.js, `TaxComplianceAgent.determineTaxRate` (lines 217-225):
default tax rate inferred from the `product` label by an ordered chain of
substring tests on the lower-cased label, defaulting to 18. -/
def determineTaxRate (sale : RawSale) : ℚ :=
  let product := jsToLower (jsOrStr sale.product "")
  if jsIncludes product "essential" || jsIncludes product "food" then 0
  else if jsIncludes product "common" || jsIncludes product "basic" then 5
  else if jsIncludes product "standard" || jsIncludes product "processed" then 12
  else if jsIncludes product "luxury" || jsIncludes product "premium" then 28
  else 18

/-- src/newserver.js line 185: `parseFloat(sale.amount) || 0`. -/
def saleAmount (sale : RawSale) : ℚ := jsOrNum sale.amount 0

/-- src/newserver.js line 186:
`parseFloat(sale.taxRate) || this.determineTaxRate(sale)`.  Because `0` is
falsy in JavaScript, a tax-rate field that parses to `0` also falls through to
the product-label inference. -/
def saleTaxRate (sale : RawSale) : ℚ := jsOrNum sale.taxRate (determineTaxRate sale)

/-- src/server.js line 117: `parseFloat(sale.taxRate) || 18`. -/
def saleTaxRateGST (sale : RawSale) : ℚ := jsOrNum sale.taxRate 18

/-- src/newserver.js line 187 and src/server.js line 118:
`sale.state || 'Unknown'`. -/
def saleState (sale : RawSale) : String := jsOrStr sale.state "Unknown"

/-- JavaScript `if (!m[k]) m[k] = 0; m[k] += v` on an object modelled as an
insertion-ordered association list: an existing entry is updated in place, a
new key is appended at the end (matching `Object.keys` insertion order for
string keys). -/
def bumpEntry [DecidableEq α] (m : List (α × ℚ)) (k : α) (v : ℚ) : List (α × ℚ) :=
  match m with
  | [] => [(k, v)]
  | (k', v') :: rest =>
    if k' = k then (k', v' + v) :: rest else (k', v') :: bumpEntry rest k v

/-- Aggregate result of one upload (src/newserver.js lines 206-214 and
src/server.js lines 146-154). -/
structure TaxCalculation where
  totalSales : ℚ
  cgst : ℚ
  sgst : ℚ
  igst : ℚ
  totalTax : ℚ
  salesByState : List (String × ℚ)
  salesByTaxSlab : List (ℚ × ℚ)
deriving Repr, DecidableEq

/-- The running accumulator of the aggregation loop. -/
structure TaxAcc where
  totalSales : ℚ
  cgst : ℚ
  sgst : ℚ
  igst : ℚ
  salesByState : List (String × ℚ)
  salesByTaxSlab : List (ℚ × ℚ)
deriving Repr, DecidableEq

def initTaxAcc : TaxAcc := ⟨0, 0, 0, 0, [], []⟩

/-- One iteration of the `salesData.forEach` loop of
`TaxComplianceAgent.calculateTaxes` (src/newserver.js lines 184-204). -/
def taxStep (acc : TaxAcc) (sale : RawSale) : TaxAcc :=
  let amount := saleAmount sale
  let taxRate := saleTaxRate sale
  let state := saleState sale
  let acc1 : TaxAcc :=
    { acc with
      totalSales := acc.totalSales + amount
      salesByState := bumpEntry acc.salesByState state amount
      salesByTaxSlab := bumpEntry acc.salesByTaxSlab taxRate amount }
  if state = "Home State" then
    let taxAmount := amount * (taxRate / 100)
    { acc1 with cgst := acc1.cgst + taxAmount / 2, sgst := acc1.sgst + taxAmount / 2 }
  else
    { acc1 with igst := acc1.igst + amount * (taxRate / 100) }

/-- src/newserver.js, `TaxComplianceAgent.calculateTaxes` (lines 176-215).
`totalTax` is produced once at the end as `cgst + sgst + igst`. -/
def calculateTaxes (salesData : List RawSale) : TaxCalculation :=
  let acc := salesData.foldl taxStep initTaxAcc
  ⟨acc.totalSales, acc.cgst, acc.sgst, acc.igst, acc.cgst + acc.sgst + acc.igst,
   acc.salesByState, acc.salesByTaxSlab⟩

/-- One iteration of the `salesData.forEach` loop of `calculateGST`
(src/server.js lines 115-144); identical to `taxStep` except that a missing or
falsy tax-rate field defaults to the flat rate 18. -/
def gstStep (acc : TaxAcc) (sale : RawSale) : TaxAcc :=
  let amount := saleAmount sale
  let taxRate := saleTaxRateGST sale
  let state := saleState sale
  let acc1 : TaxAcc :=
    { acc with
      totalSales := acc.totalSales + amount
      salesByState := bumpEntry acc.salesByState state amount
      salesByTaxSlab := bumpEntry acc.salesByTaxSlab taxRate amount }
  if state = "Home State" then
    let taxAmount := amount * (taxRate / 100)
    { acc1 with cgst := acc1.cgst + taxAmount / 2, sgst := acc1.sgst + taxAmount / 2 }
  else
    { acc1 with igst := acc1.igst + amount * (taxRate / 100) }

/-- src/server.js, `calculateGST` (lines 107-155). -/
def calculateGST (salesData : List RawSale) : TaxCalculation :=
  let acc := salesData.foldl gstStep initTaxAcc
  ⟨acc.totalSales, acc.cgst, acc.sgst, acc.igst, acc.cgst + acc.sgst + acc.igst,
   acc.salesByState, acc.salesByTaxSlab⟩

/-- The ordered default-rate rule list as the specification words it
(spec section 4.1): keyword substrings paired with the inferred rate; rules are
checked in this fixed order and the first matching rule wins. -/
def specRateRules : List (List String × ℚ) :=
  [ (["essential", "food"], 0)
  , (["common", "basic"], 5)
  , (["standard", "processed"], 12)
  , (["luxury", "premium"], 28) ]

/-- First-match lookup over `specRateRules` against the lower-cased product
label, defaulting to 18 when no rule matches. -/
def specInferRate (product : String) : ℚ :=
  match specRateRules.find? (fun rule => rule.1.any (fun kw => jsIncludes product kw)) with
  | some rule => rule.2
  | none => 18

/-- The row exhibiting the `parseFloat(row.taxRate) || ...` fallthrough: its
tax-rate field is present and parses to the decimal 0, and its product label
names a luxury good. -/
def c2Row : RawSale := ⟨some 100, some 0, some "Home State", some "Luxury Soap"⟩

/-- JavaScript runtime errors arising on the analysis path, together with the
`EmptyDatasetError` class that the specification postulates (no code path of
the repository constructs such an error; it is included so that statements
about it can be expressed). -/
inductive JsErr where
  | typeError
  | emptyDataset
deriving Repr, DecidableEq

/-- JavaScript `Array.prototype.reduce(f)` with no initial value: throws
`TypeError: Reduce of empty array with no initial value` on the empty array,
otherwise folds from the first element. -/
def jsReduce (f : α → α → α) : List α → Except JsErr α
  | [] => .error .typeError
  | a :: as => .ok (as.foldl f a)

/-- The keys of an insertion-ordered object, in insertion order. -/
def entryKeys (m : List (α × ℚ)) : List α := m.map Prod.fst

/-- Lookup of a key known to be present (absent keys read as 0, a case never
reached on the analysis path since keys are drawn from the object itself). -/
def lookup0 [DecidableEq α] (m : List (α × ℚ)) (k : α) : ℚ :=
  match m.find? (fun e => decide (e.1 = k)) with
  | some e => e.2
  | none => 0

/-- A numeric key whose JavaScript string form is array-index-like (a canonical
non-negative integer below 2^32 - 1): `Object.keys` enumerates such keys
first, in ascending numeric order, before the remaining keys in insertion
order. -/
def isArrayIndexKey (q : ℚ) : Bool :=
  q.den = 1 && decide (0 ≤ q.num) && decide (q.num < 4294967295)

def insertAsc (q : ℚ) : List ℚ → List ℚ
  | [] => [q]
  | a :: as => if q ≤ a then q :: a :: as else a :: insertAsc q as

def sortAsc : List ℚ → List ℚ
  | [] => []
  | a :: as => insertAsc a (sortAsc as)

/-- `Object.keys` order for an object whose keys are numbers: array-index-like
keys ascending, then the remaining keys in insertion order. -/
def jsNumKeys (m : List (ℚ × ℚ)) : List ℚ :=
  sortAsc ((entryKeys m).filter isArrayIndexKey)
    ++ (entryKeys m).filter (fun q => !isArrayIndexKey q)

/-- The numeric value of a digit string (used only on all-digit strings). -/
def strIndexVal (s : String) : ℕ :=
  s.data.foldl (fun acc c => acc * 10 + (c.toNat - 48)) 0

/-- A string key that is array-index-like for `Object.keys`: the canonical
decimal representation (no leading zero except "0" itself) of an integer in
0..2^32 - 2.  A CSV state column can hold such values, so the state map is
subject to the same key reordering as the numeric slab map. -/
def isArrayIndexStr (s : String) : Bool :=
  match s.data with
  | [] => false
  | c :: rest =>
    (c :: rest).all Char.isDigit && (c != '0' || rest.isEmpty)
      && strIndexVal s < 4294967295

def insertAscStr (s : String) : List String → List String
  | [] => [s]
  | a :: as => if strIndexVal s ≤ strIndexVal a then s :: a :: as else a :: insertAscStr s as

def sortAscStr : List String → List String
  | [] => []
  | a :: as => insertAscStr a (sortAscStr as)

/-- `Object.keys` order for an object whose keys are strings: array-index-like
keys first, in ascending numeric order, then the remaining keys in insertion
order. -/
def jsStrKeys (m : List (String × ℚ)) : List String :=
  sortAscStr ((entryKeys m).filter isArrayIndexStr)
    ++ (entryKeys m).filter (fun s => !isArrayIndexStr s)

/-- src/newserver.js lines 228-234: `Object.keys(m).reduce((a, b) => m[a] > m[b] ? a : b)`. -/
def argmaxKey [DecidableEq α] (m : List (α × ℚ)) (ks : List α) : Except JsErr α :=
  jsReduce (fun a b => if lookup0 m b < lookup0 m a then a else b) ks

/-- src/newserver.js, `TaxComplianceAgent.classifyBusinessSize` (lines 245-251). -/
def classifyBusinessSize (totalSales : ℚ) : String :=
  if totalSales < 100000 then "Micro"
  else if totalSales < 1000000 then "Small"
  else if totalSales < 5000000 then "Medium"
  else "Large"

/-- JavaScript `a / b > t` under IEEE semantics when `b` may be 0: `a / 0` is
`Infinity` for positive `a` (comparison true), `NaN` for `a = 0` and
`-Infinity` for negative `a` (comparison false in both cases); for nonzero `b`
the comparison is the exact rational one. -/
def jsDivGt (a b t : ℚ) : Bool :=
  if b = 0 then decide (0 < a) else decide (t < a / b)

/-- src/newserver.js, `TaxComplianceAgent.assessComplianceRisk`
(lines 253-261).  The `salesData` argument is received but never used by the
source either. -/
def assessComplianceRisk (salesData : List RawSale) (taxCalculation : TaxCalculation) :
    String :=
  let r0 : ℕ := 0
  let r1 := if 0 < taxCalculation.igst then r0 + 1 else r0
  let r2 := if 3 < taxCalculation.salesByTaxSlab.length then r1 + 1 else r1
  let r3 := if jsDivGt taxCalculation.totalTax taxCalculation.totalSales (15 / 100)
            then r2 + 1 else r2
  if r3 < 2 then "Low" else if r3 < 4 then "Medium" else "High"

/-- Derived business metrics (src/newserver.js lines 236-242).  In the source
`primaryTaxSlab` is the key string of the slab object; here it is the rational
the key denotes. -/
structure BusinessAnalysis where
  primaryTaxSlab : ℚ
  primaryState : String
  averageTransaction : ℚ
  businessSize : String
  complianceRisk : String
deriving Repr, DecidableEq

/-- src/newserver.js, `TaxComplianceAgent.analyzeBusinessPatterns`
(lines 227-243).  Both `reduce` calls scan `Object.keys` of their map —
array-index-like keys first in ascending numeric order, then the rest in
insertion order, for the string-keyed state map just as for the number-keyed
slab map — and run with no initial value, so an empty key list throws; the
division `totalSales / salesData.length` is reached only after both reduces
succeed, hence only with a nonempty record list on the upload pipeline (where
the maps are built from those records). -/
def analyzeBusinessPatterns (salesData : List RawSale) (taxCalculation : TaxCalculation) :
    Except JsErr BusinessAnalysis := do
  let primaryTaxSlab ← argmaxKey taxCalculation.salesByTaxSlab
      (jsNumKeys taxCalculation.salesByTaxSlab)
  let primaryState ← argmaxKey taxCalculation.salesByState
      (jsStrKeys taxCalculation.salesByState)
  pure
    { primaryTaxSlab := primaryTaxSlab
      primaryState := primaryState
      averageTransaction := taxCalculation.totalSales / (salesData.length : ℚ)
      businessSize := classifyBusinessSize taxCalculation.totalSales
      complianceRisk := assessComplianceRisk salesData taxCalculation }

/-- Modelled from the amended C4 claim: the risk score as a plain sum of three
indicator terms, the third reading the JavaScript division semantics at
`totalSales = 0` as "contributes 1 exactly when `totalTax` is positive". -/
def specRiskScore (c : TaxCalculation) : ℕ :=
  (if 0 < c.igst then 1 else 0)
    + (if 3 < c.salesByTaxSlab.length then 1 else 0)
    + (if (if c.totalSales = 0 then 0 < c.totalTax
           else (15 / 100 : ℚ) < c.totalTax / c.totalSales) then 1 else 0)

/-- Modelled from the amended C4 claim: score-to-label mapping. -/
def specRiskLabel (s : ℕ) : String :=
  if s ≤ 1 then "Low" else if s ≤ 3 then "Medium" else "High"

/-- Two records whose amounts cancel: an interstate sale of 100 at rate 18 and
a return of -100 at inferred rate 0, giving `totalSales = 0` with
`totalTax = 18 > 0`. -/
def c4Data : List RawSale :=
  [ ⟨some 100, some 18, some "Other", none⟩
  , ⟨some (-100), none, some "Other", some "essential goods"⟩ ]

/-- Two sale records with equal amounts in two distinct states "A" and "B",
exhibiting a tie in the per-state totals. -/
def c5Data : List RawSale :=
  [⟨some 10, some 18, some "A", none⟩, ⟨some 10, some 18, some "B", none⟩]

/-- The analysis the code produces for `c5Data`: the tie between "A" and "B"
is resolved in favour of the later key "B". -/
def c5A : BusinessAnalysis := ⟨18, "B", 10, "Micro", "Medium"⟩

/-- `calculateTaxes c5Data`, spelled out. -/
def c5Calc : TaxCalculation :=
  ⟨20, 0, 0, 18 / 5, 18 / 5, [("A", 10), ("B", 10)], [((18 : ℚ), (20 : ℚ))]⟩

/-- A calendar instant reduced to what `calculateDeadlines` reads from
`new Date()`: the full year and the 0-based month index. -/
structure JsMonthDate where
  year : Int
  month : Int
deriving Repr, DecidableEq

/-- A calendar date as produced by the JavaScript `Date(year, month, day)`
constructor (day overflow is not exercised here: only days 1, 10 and 20 are
ever constructed). -/
structure JsDate where
  year : Int
  month : Int
  day : Int
deriving Repr, DecidableEq

/-- JavaScript `new Date(y, m, d)` month normalization: month indices outside
0..11 roll the year (Euclidean division by the positive constant 12 agrees
with JavaScript's floor behaviour). -/
def jsMakeDate (y m d : Int) : JsDate := ⟨y + m / 12, m % 12, d⟩

structure Deadlines where
  gstr1 : JsDate
  gstr3b : JsDate
  payment : JsDate
deriving Repr, DecidableEq

/-- src/newserver.js, `TaxComplianceAgent.calculateDeadlines` (lines 275-284):
`nextMonth = new Date(y, m + 1, 1)`, then the 10th and 20th of that month. -/
def calculateDeadlines (now : JsMonthDate) : Deadlines :=
  let nextMonth := jsMakeDate now.year (now.month + 1) 1
  { gstr1 := jsMakeDate nextMonth.year nextMonth.month 10
    gstr3b := jsMakeDate nextMonth.year nextMonth.month 20
    payment := jsMakeDate nextMonth.year nextMonth.month 20 }

/-- Result of `TaxComplianceAgent.checkCompliance` (src/newserver.js
lines 263-273). -/
structure ComplianceCheck where
  applicableReturns : List String
  deadlines : Deadlines
  itcEligibility : Bool
  specialSchemes : List String
  riskAreas : List String
deriving Repr, DecidableEq

/-- src/newserver.js, `TaxComplianceAgent.checkCompliance` (lines 263-273).
The `relevantLaws` retrieval on line 264 is dead code (its result is never
used) and is omitted.  `new Date()` inside `calculateDeadlines` is passed in
as `now`. -/
def checkCompliance (now : JsMonthDate) (businessAnalysis : BusinessAnalysis) :
    ComplianceCheck :=
  { applicableReturns := ["GSTR-1", "GSTR-3B"]
    deadlines := calculateDeadlines now
    itcEligibility := businessAnalysis.complianceRisk == "Low"
    specialSchemes :=
      if businessAnalysis.businessSize == "Micro" then ["Composition Scheme"] else []
    riskAreas :=
      if businessAnalysis.complianceRisk != "Low"
      then ["Interstate Sales", "Multiple Tax Rates"] else [] }

/-- The calendar month following `now`, as the specification words it: the
next month of the same year, rolling over to January (index 0) of the next
year after December (index 11). -/
def specFollowingMonth (now : JsMonthDate) : JsMonthDate :=
  if now.month = 11 then ⟨now.year + 1, 0⟩ else ⟨now.year, now.month + 1⟩

/-- src/newserver.js lines 287-289: the prompt sent to the text-generation
collaborator. -/
def buildPlanPrompt (businessAnalysis : BusinessAnalysis)
    (complianceCheck : ComplianceCheck) : String :=
  "Create a comprehensive 3-month GST compliance plan for a "
    ++ businessAnalysis.businessSize ++ " business \n    with "
    ++ businessAnalysis.complianceRisk ++ " compliance risk. Focus on: "
    ++ String.intercalate ", " complianceCheck.riskAreas
    ++ ". \n    Include monthly actions, deadlines, and risk mitigation strategies."

/-- src/newserver.js lines 303-319: the deterministic fallback plan template,
built verbatim from the computed fields.  `render` stands for the runtime's
`Date.prototype.toDateString`. -/
def fallbackPlan (render : JsDate → String) (businessAnalysis : BusinessAnalysis)
    (complianceCheck : ComplianceCheck) : String :=
  "COMPLIANCE PLAN FOR " ++ businessAnalysis.businessSize
    ++ " BUSINESS:\n    \n    Month 1:\n    - File GSTR-1 by "
    ++ render complianceCheck.deadlines.gstr1
    ++ "\n    - File GSTR-3B by "
    ++ render complianceCheck.deadlines.gstr3b
    ++ "\n    - Pay taxes by "
    ++ render complianceCheck.deadlines.payment
    ++ "\n    - Reconcile input tax credit claims\n    \n    Month 2:\n    - Review compliance with new 2024 regulations\n    - Optimize tax strategy based on sales patterns\n    - Prepare for upcoming deadlines\n    \n    Month 3:\n    - Conduct compliance health check\n    - Plan for next quarter based on business trends\n    - Consider "
    ++ String.intercalate ", " complianceCheck.specialSchemes
    ++ " if applicable"

/-- src/newserver.js, `TaxComplianceAgent.generateCompliancePlan`
(lines 286-320).  The optional Gemini collaborator is modelled as an optional
function from the prompt to either generated text or a failure (covering both
a thrown error and a rejected promise, which the `try`/`catch` swallows); when
it is absent or fails, the deterministic fallback template is returned. -/
def generateCompliancePlan (genAI : Option (String → Except Unit String))
    (render : JsDate → String) (businessAnalysis : BusinessAnalysis)
    (complianceCheck : ComplianceCheck) : String :=
  match genAI with
  | some model =>
    match model (buildPlanPrompt businessAnalysis complianceCheck) with
    | Except.ok text => text
    | Except.error _ => fallbackPlan render businessAnalysis complianceCheck
  | none => fallbackPlan render businessAnalysis complianceCheck

/-- `mid` occurs contiguously inside `s`. -/
def StrContains (s mid : String) : Prop :=
  ∃ pre post : List Char, s.data = pre ++ mid.data ++ post

/-- A static corpus entry (src/newserver.js lines 74-117). -/
structure KnowledgeDoc where
  id : String
  content : String
  tags : List String
deriving Repr, DecidableEq

/-- src/newserver.js, `gstKnowledgeDocuments` (lines 74-117): the six built-in
policy documents, indexed in this order by `initializeKnowledgeBase` (the
optional knowledge-base directory is empty in the repository, so the corpus is
exactly these six). -/
def gstKnowledgeDocuments : List KnowledgeDoc :=
  [ ⟨"gst_basics_2024",
     "GST (Goods and Services Tax) is a comprehensive indirect tax on the supply of goods and services in India. \n    As of 2024, GST has four primary tax slabs: 0% (essential goods), 5% (common items), 12% and 18% (standard rates), \n    and 28% (luxury items). The composition scheme limit has been increased to ₹1.5 crore.",
     ["basics", "2024", "rates"]⟩
  , ⟨"gstr1_deadline_2024",
     "GSTR-1 must be filed by the 10th of the following month. It contains details of all outward supplies (sales) \n    made during the tax period. Late filing attracts a penalty of ₹50 per day (₹20 for nil returns).",
     ["gstr1", "deadline", "2024", "penalty"]⟩
  , ⟨"gstr3b_deadline_2024",
     "GSTR-3B must be filed by the 20th of the following month. It is a monthly summary return that includes \n    summary of outward supplies, input tax credit claimed, and tax payment details. Interest at 18% per annum on late payment.",
     ["gstr3b", "deadline", "2024", "interest"]⟩
  , ⟨"itc_rules_2024",
     "Input Tax Credit (ITC) can be claimed only if: 1) You possess a valid tax invoice 2) Goods/services have been received \n    3) Supplier has filed their returns 4) Tax has been paid to government. New 2024 rule: ITC claim period extended to 30 days \n    from date of invoice.",
     ["itc", "input tax credit", "2024", "rules"]⟩
  , ⟨"new_tax_policies_2024",
     "2024 GST Updates: 1) Composition scheme limit increased to ₹1.5 crore 2) Online gaming taxed at 28% 3) \n    Penalty relief for small taxpayers 4) Enhanced invoice matching system 5) E-invoicing mandatory for ₹5 crore+ turnover",
     ["2024", "updates", "policy", "changes"]⟩
  , ⟨"gst_rates_2024",
     "GST Rate Structure 2024:\n    - 0%: Essential goods, fresh food items, agricultural products\n    - 5%: Common use items, apparel below ₹1000, packaged foods\n    - 12%: Processed foods, computers, mobile phones\n    - 18%: Most goods and services, AC restaurants, financial services\n    - 28%: Luxury goods, sin goods, premium cars, online gaming",
     ["rates", "2024", "tax_slabs"]⟩ ]

/-- Descending order on (document, relevance) pairs, as in
`results.sort((a, b) => b.relevance - a.relevance)`. -/
def relDesc : KnowledgeDoc × ℚ → KnowledgeDoc × ℚ → Prop := fun a b => b.2 ≤ a.2

instance : DecidableRel relDesc := fun a b => inferInstanceAs (Decidable (b.2 ≤ a.2))

instance : IsTotal (KnowledgeDoc × ℚ) relDesc := ⟨fun a b => le_total b.2 a.2⟩

instance : IsTrans (KnowledgeDoc × ℚ) relDesc := ⟨fun _ _ _ hab hbc => le_trans hbc hab⟩

/-- src/newserver.js, `retrieveRelevantKnowledge` (lines 406-421).
`tfidf.tfidfs(query, cb)` invokes the callback once per indexed document, in
index order, with that document's TF-IDF measure for the query; the scorer
lives in the external `natural` library and is modelled as the function
argument `tfidfs`.  Documents with measure 0 are never pushed; the survivors
are sorted descending by relevance and the first `maxResults` returned.  (The
source's sort is a stable JS sort; tie order among equal scores is not relied
upon by any statement below.) -/
def retrieveRelevantKnowledge (tfidfs : String → ℕ → ℚ) (query : String)
    (maxResults : ℕ := 3) : List (KnowledgeDoc × ℚ) :=
  let results := (List.range gstKnowledgeDocuments.length).filterMap fun i =>
    if 0 < tfidfs query i then
      gstKnowledgeDocuments[i]?.map (fun doc => (doc, tfidfs query i))
    else none
  (List.insertionSort relDesc results).take maxResults

/-- The single-positive-document measure used to instantiate the retrieval
theorem: document index 1 scores 2, every other index scores 0. -/
def c7tfidfs : String → ℕ → ℚ := fun _ i => if i = 1 then 2 else 0

/-- Example rendering function standing in for `Date.prototype.toDateString`. -/
def c8render : JsDate → String :=
  fun d => toString d.year ++ "-" ++ toString d.month ++ "-" ++ toString d.day

/-- Example analysis used to instantiate the compliance-plan theorem. -/
def c8A : BusinessAnalysis := ⟨18, "Maharashtra", 1000, "Micro", "Medium"⟩

/-- Example compliance check derived from `c8A` in October 2025 (month 9). -/
def c8C : ComplianceCheck := checkCompliance ⟨2025, 9⟩ c8A

/-- Example analysis used to instantiate the compliance-check theorem. -/
def c6A : BusinessAnalysis := ⟨18, "Telangana", 500, "Small", "Low"⟩

/-! ## Theorems -/

/-- The `reduce((a, b) => m[a] > m[b] ? a : b)` fold over a key list: the
result is a key of the list, its value is maximal, and it is the LAST key of
the list attaining that maximal value (on a tie between `a` and `b`, the
comparison `m[a] > m[b]` is false and `b` — the later key — is kept). -/
theorem argmax_foldl_spec (val : α → ℚ) (ks : List α) :
    ∀ a : α,
      (ks.foldl (fun x y => if val y < val x then x else y) a) ∈ a :: ks
      ∧ (∀ k ∈ a :: ks,
          val k ≤ val (ks.foldl (fun x y => if val y < val x then x else y) a))
      ∧ ((a :: ks).filter
            (fun k => decide (val k
              = val (ks.foldl (fun x y => if val y < val x then x else y) a)))).getLast?
          = some (ks.foldl (fun x y => if val y < val x then x else y) a) := by
  induction ks with
  | nil =>
    intro a
    refine ⟨by simp, by simp, by simp⟩
  | cons b ks IH =>
    intro a
    simp only [List.foldl_cons]
    by_cases hab : val b < val a
    · simp only [if_pos hab]
      obtain ⟨h1, h2, h3⟩ := IH a
      have hbr : val b < val (ks.foldl (fun x y => if val y < val x then x else y) a) :=
        lt_of_lt_of_le hab (h2 a (by simp))
      refine ⟨?_, ?_, ?_⟩
      · rcases List.mem_cons.mp h1 with h | h
        · simp [h]
        · simp [List.mem_cons, h]
      · intro k hk
        rcases List.mem_cons.mp hk with rfl | hk'
        · exact h2 k (by simp)
        rcases List.mem_cons.mp hk' with rfl | hk''
        · exact le_of_lt hbr
        · exact h2 k (by simp [hk''])
      · have hpb : decide (val b
            = val (ks.foldl (fun x y => if val y < val x then x else y) a)) = false :=
          decide_eq_false (ne_of_lt hbr)
        simpa [List.filter_cons, hpb] using h3
    · simp only [if_neg hab]
      obtain ⟨h1, h2, h3⟩ := IH b
      have hba : val a ≤ val b := le_of_not_lt hab
      refine ⟨?_, ?_, ?_⟩
      · rcases List.mem_cons.mp h1 with h | h
        · simp [h]
        · simp [List.mem_cons, h]
      · intro k hk
        rcases List.mem_cons.mp hk with rfl | hk'
        · exact le_trans hba (h2 b (by simp))
        rcases List.mem_cons.mp hk' with rfl | hk''
        · exact h2 k (by simp)
        · exact h2 k (by simp [hk''])
      · by_cases hpa : val a = val (ks.foldl (fun x y => if val y < val x then x else y) b)
        · have hvbr : val b = val (ks.foldl (fun x y => if val y < val x then x else y) b) :=
            le_antisymm (h2 b (by simp)) (hpa ▸ hba)
          have hfb : (b :: ks).filter
              (fun k => decide (val k
                = val (ks.foldl (fun x y => if val y < val x then x else y) b)))
              = b :: ks.filter (fun k => decide (val k
                = val (ks.foldl (fun x y => if val y < val x then x else y) b))) := by
            simp [List.filter_cons, hvbr]
          rw [List.filter_cons, if_pos (by simpa using hpa), hfb, List.getLast?_cons_cons]
          rw [hfb] at h3
          exact h3
        · have hpa' : decide (val a
              = val (ks.foldl (fun x y => if val y < val x then x else y) b)) = false :=
            decide_eq_false hpa
          simpa [List.filter_cons, hpa'] using h3

/-- `calculateTaxes c5Data` evaluated. -/
theorem c5_hcalc : calculateTaxes c5Data = c5Calc := by
  have hrate1 : saleTaxRate ⟨some 10, some 18, some "A", none⟩ = 18 := rfl
  have hrate2 : saleTaxRate ⟨some 10, some 18, some "B", none⟩ = 18 := rfl
  simp only [calculateTaxes, c5Data, initTaxAcc, taxStep, saleAmount, saleState, jsOrNum,
    jsOrStr, List.foldl, bumpEntry, hrate1, hrate2, String.reduceEq, reduceIte]
  norm_num [TaxCalculation.mk.injEq, c5Calc]

/-- The analysis pipeline evaluated on `c5Data`. -/
theorem c5_eval : analyzeBusinessPatterns c5Data (calculateTaxes c5Data) = Except.ok c5A := by
  rw [c5_hcalc]
  have hA : lookup0 [("A", (10 : ℚ)), ("B", 10)] "A" = 10 := rfl
  have hB : lookup0 [("A", (10 : ℚ)), ("B", 10)] "B" = 10 := rfl
  have hnum : jsNumKeys [((18 : ℚ), (20 : ℚ))] = [18] := rfl
  have hkeys : jsStrKeys [("A", (10 : ℚ)), ("B", 10)] = ["A", "B"] := rfl
  norm_num [analyzeBusinessPatterns, argmaxKey, jsReduce, hnum, hkeys,
    classifyBusinessSize, hA, hB,
    assessComplianceRisk, jsDivGt, Bind.bind, Except.bind, Functor.map, Except.map,
    Pure.pure, Except.pure, c5Data, c5A, c5Calc, List.foldl, String.reduceEq,
    BusinessAnalysis.mk.injEq]

/-- C5 counterexample: two states "A" then "B" (in key order) with equal
summed amounts.  The claim's first-encountered-key tie-break predicts
`primaryState = "A"`; the code returns "B", because
`reduce((a, b) => m[a] > m[b] ? a : b)` keeps the later key on a tie. -/
theorem primaryState_tie_counterexample :
    jsStrKeys (calculateTaxes c5Data).salesByState = ["A", "B"]
    ∧ lookup0 (calculateTaxes c5Data).salesByState "A"
        = lookup0 (calculateTaxes c5Data).salesByState "B"
    ∧ analyzeBusinessPatterns c5Data (calculateTaxes c5Data) = Except.ok c5A
    ∧ c5A.primaryState = "B"
    ∧ "B" ≠ "A" := by
  refine ⟨?_, ?_, c5_eval, rfl, by decide⟩
  · rw [c5_hcalc]; rfl
  · rw [c5_hcalc]; rfl

/-- C5 (amended): for every analysis that succeeds, `primaryTaxSlab` is a key
of `salesByTaxSlab` with maximal summed amount and `primaryState` is a key of
`salesByState` with maximal summed amount, each selected by a deterministic
left-to-right scan of the object's `Object.keys` order (array-index-like keys
— whether number keys of the slab map or canonical integer strings among the
state labels — first in ascending numeric order, then the remaining keys in
insertion order) in which the LAST-encountered key wins ties. -/
theorem primary_keys_last_max (salesData : List RawSale) (c : TaxCalculation)
    (a : BusinessAnalysis)
    (h : analyzeBusinessPatterns salesData c = Except.ok a) :
    (a.primaryTaxSlab ∈ jsNumKeys c.salesByTaxSlab
      ∧ (∀ k ∈ jsNumKeys c.salesByTaxSlab,
          lookup0 c.salesByTaxSlab k ≤ lookup0 c.salesByTaxSlab a.primaryTaxSlab)
      ∧ ((jsNumKeys c.salesByTaxSlab).filter
            (fun k => decide (lookup0 c.salesByTaxSlab k
              = lookup0 c.salesByTaxSlab a.primaryTaxSlab))).getLast?
          = some a.primaryTaxSlab)
    ∧ (a.primaryState ∈ jsStrKeys c.salesByState
      ∧ (∀ k ∈ jsStrKeys c.salesByState,
          lookup0 c.salesByState k ≤ lookup0 c.salesByState a.primaryState)
      ∧ ((jsStrKeys c.salesByState).filter
            (fun k => decide (lookup0 c.salesByState k
              = lookup0 c.salesByState a.primaryState))).getLast?
          = some a.primaryState) := by
  cases hks : jsNumKeys c.salesByTaxSlab with
  | nil =>
    rw [analyzeBusinessPatterns, argmaxKey, hks] at h
    simp [jsReduce, Bind.bind, Except.bind] at h
  | cons k kt =>
    cases hss : jsStrKeys c.salesByState with
    | nil =>
      rw [analyzeBusinessPatterns, argmaxKey, hks, argmaxKey, hss] at h
      simp [jsReduce, Bind.bind, Except.bind, Functor.map, Except.map] at h
    | cons s st =>
      rw [analyzeBusinessPatterns, argmaxKey, hks, argmaxKey, hss] at h
      simp only [jsReduce, Bind.bind, Except.bind, Functor.map, Except.map, Pure.pure,
        Except.pure, Except.ok.injEq] at h
      subst h
      obtain ⟨m1, l1, g1⟩ := argmax_foldl_spec (lookup0 c.salesByTaxSlab) kt k
      obtain ⟨m2, l2, g2⟩ := argmax_foldl_spec (lookup0 c.salesByState) st s
      exact ⟨⟨m1, l1, g1⟩, ⟨m2, l2, g2⟩⟩

/-- C5 witness: the amended statement instantiated on `c5Data`, with the
success hypothesis discharged by evaluation. -/
theorem primary_keys_last_max_witness :
    (c5A.primaryTaxSlab ∈ jsNumKeys (calculateTaxes c5Data).salesByTaxSlab
      ∧ (∀ k ∈ jsNumKeys (calculateTaxes c5Data).salesByTaxSlab,
          lookup0 (calculateTaxes c5Data).salesByTaxSlab k
            ≤ lookup0 (calculateTaxes c5Data).salesByTaxSlab c5A.primaryTaxSlab)
      ∧ ((jsNumKeys (calculateTaxes c5Data).salesByTaxSlab).filter
            (fun k => decide (lookup0 (calculateTaxes c5Data).salesByTaxSlab k
              = lookup0 (calculateTaxes c5Data).salesByTaxSlab c5A.primaryTaxSlab))).getLast?
          = some c5A.primaryTaxSlab)
    ∧ (c5A.primaryState ∈ jsStrKeys (calculateTaxes c5Data).salesByState
      ∧ (∀ k ∈ jsStrKeys (calculateTaxes c5Data).salesByState,
          lookup0 (calculateTaxes c5Data).salesByState k
            ≤ lookup0 (calculateTaxes c5Data).salesByState c5A.primaryState)
      ∧ ((jsStrKeys (calculateTaxes c5Data).salesByState).filter
            (fun k => decide (lookup0 (calculateTaxes c5Data).salesByState k
              = lookup0 (calculateTaxes c5Data).salesByState c5A.primaryState))).getLast?
          = some c5A.primaryState) :=
  primary_keys_last_max c5Data (calculateTaxes c5Data) c5A c5_eval

/-- C1: For every input sequence of sale records, `calculateTaxes` (and
`calculateGST`) returns a result whose `totalTax` equals `cgst + sgst + igst`,
and each record contributes to exactly one side: a record whose (defaulted)
state is "Home State" adds its full tax amount `amount * rate / 100` split
evenly between `cgst` and `sgst` (the two half-contributions sum to the full
tax amount) and leaves `igst` unchanged, while a record with any other state
(including a missing state defaulted to "Unknown") adds the full tax amount to
`igst` and leaves `cgst` and `sgst` unchanged. -/
theorem calculateTaxes_split_invariant (xs : List RawSale) (x : RawSale) :
    ((calculateTaxes xs).totalTax
        = (calculateTaxes xs).cgst + (calculateTaxes xs).sgst + (calculateTaxes xs).igst
      ∧ (calculateGST xs).totalTax
        = (calculateGST xs).cgst + (calculateGST xs).sgst + (calculateGST xs).igst)
    ∧ (saleState x = "Home State" →
        (calculateTaxes (xs ++ [x])).cgst
            = (calculateTaxes xs).cgst + saleAmount x * (saleTaxRate x / 100) / 2
          ∧ (calculateTaxes (xs ++ [x])).sgst
            = (calculateTaxes xs).sgst + saleAmount x * (saleTaxRate x / 100) / 2
          ∧ saleAmount x * (saleTaxRate x / 100) / 2 + saleAmount x * (saleTaxRate x / 100) / 2
            = saleAmount x * (saleTaxRate x / 100)
          ∧ (calculateTaxes (xs ++ [x])).igst = (calculateTaxes xs).igst
          ∧ (calculateGST (xs ++ [x])).cgst
            = (calculateGST xs).cgst + saleAmount x * (saleTaxRateGST x / 100) / 2
          ∧ (calculateGST (xs ++ [x])).sgst
            = (calculateGST xs).sgst + saleAmount x * (saleTaxRateGST x / 100) / 2
          ∧ (calculateGST (xs ++ [x])).igst = (calculateGST xs).igst)
    ∧ (saleState x ≠ "Home State" →
        (calculateTaxes (xs ++ [x])).igst
            = (calculateTaxes xs).igst + saleAmount x * (saleTaxRate x / 100)
          ∧ (calculateTaxes (xs ++ [x])).cgst = (calculateTaxes xs).cgst
          ∧ (calculateTaxes (xs ++ [x])).sgst = (calculateTaxes xs).sgst
          ∧ (calculateGST (xs ++ [x])).igst
            = (calculateGST xs).igst + saleAmount x * (saleTaxRateGST x / 100)
          ∧ (calculateGST (xs ++ [x])).cgst = (calculateGST xs).cgst
          ∧ (calculateGST (xs ++ [x])).sgst = (calculateGST xs).sgst) := by
  refine ⟨⟨rfl, rfl⟩, fun h => ?_, fun h => ?_⟩ <;>
    simp [calculateTaxes, calculateGST, List.foldl_append, taxStep, gstStep, h] <;>
    ring

/-- C1 witness: instantiation at a concrete Home-State record appended to the
empty prefix, with the hypotheses discharged by evaluation. -/
theorem calculateTaxes_split_invariant_witness :
    saleState ⟨some 1000, some 18, some "Home State", none⟩ = "Home State"
    ∧ (calculateTaxes ([] ++ [⟨some 1000, some 18, some "Home State", none⟩])).igst
        = (calculateTaxes []).igst := by
  have h := calculateTaxes_split_invariant [] ⟨some 1000, some 18, some "Home State", none⟩
  have hs : saleState ⟨some 1000, some 18, some "Home State", none⟩ = "Home State" := by
    simp [saleState, jsOrStr]
  exact ⟨hs, (h.2.1 hs).2.2.2.1⟩

/-- C2 counterexample: a row whose `taxRate` field is present and parseable —
it parses to the decimal 0 — is nevertheless assigned the product-inferred rate
28 (its label contains "luxury"), because `0` is falsy in the JavaScript
expression `parseFloat(sale.taxRate) || this.determineTaxRate(sale)`.  The
claim predicts the parsed value 0 for this row. -/
theorem saleTaxRate_zero_overridden :
    c2Row.taxRate = some 0 ∧ saleTaxRate c2Row = 28 ∧ (28 : ℚ) ≠ 0 :=
  ⟨rfl, rfl, by norm_num⟩

/-- C2 (amended): normalization sets `amount` to the parsed decimal of
`row.amount`, defaulting to 0 on parse failure; it sets `taxRate` to the parsed
decimal of `row.taxRate` whenever that field is present, parseable and NONZERO;
when the field is absent, unparseable, or parses to 0 (JavaScript falsy
fallthrough), the rate is inferred from the lower-cased product label by the
ordered substring-rule list `specRateRules` checked in its fixed order with the
first match winning — "essential"/"food" gives 0, "common"/"basic" gives 5,
"standard"/"processed" gives 12, "luxury"/"premium" gives 28, and 18
otherwise. -/
theorem saleFields_normalization (sale : RawSale) :
    saleAmount sale = sale.amount.getD 0
    ∧ (∀ q : ℚ, sale.taxRate = some q → q ≠ 0 → saleTaxRate sale = q)
    ∧ ((sale.taxRate = none ∨ sale.taxRate = some 0) →
        saleTaxRate sale = specInferRate (jsToLower (jsOrStr sale.product "")))
    ∧ determineTaxRate sale = specInferRate (jsToLower (jsOrStr sale.product "")) := by
  have hdet : determineTaxRate sale = specInferRate (jsToLower (jsOrStr sale.product "")) := by
    unfold determineTaxRate specInferRate
    simp only [specRateRules, List.find?, List.any_cons, List.any_nil, Bool.or_false]
    generalize (jsIncludes (jsToLower (jsOrStr sale.product "")) "essential"
        || jsIncludes (jsToLower (jsOrStr sale.product "")) "food") = c1
    generalize (jsIncludes (jsToLower (jsOrStr sale.product "")) "common"
        || jsIncludes (jsToLower (jsOrStr sale.product "")) "basic") = c2
    generalize (jsIncludes (jsToLower (jsOrStr sale.product "")) "standard"
        || jsIncludes (jsToLower (jsOrStr sale.product "")) "processed") = c3
    generalize (jsIncludes (jsToLower (jsOrStr sale.product "")) "luxury"
        || jsIncludes (jsToLower (jsOrStr sale.product "")) "premium") = c4
    cases c1 <;> cases c2 <;> cases c3 <;> cases c4 <;> rfl
  refine ⟨?_, ?_, ?_, hdet⟩
  · cases h : sale.amount with
    | none => simp [saleAmount, jsOrNum, h]
    | some q =>
      by_cases hq : q = 0 <;> simp [saleAmount, jsOrNum, h, hq]
  · intro q hq hq0
    simp [saleTaxRate, jsOrNum, hq, hq0]
  · intro h
    rcases h with h | h <;> simp [saleTaxRate, jsOrNum, h, hdet]

/-- C2 witness: the amended normalization rule evaluated at a concrete row
with a present nonzero tax rate. -/
theorem saleFields_normalization_witness :
    (⟨some 250, some 5, some "Home State", some "snack"⟩ : RawSale).taxRate = some 5
    ∧ (5 : ℚ) ≠ 0
    ∧ saleTaxRate ⟨some 250, some 5, some "Home State", some "snack"⟩ = 5 := by
  refine ⟨rfl, by norm_num, ?_⟩
  exact (saleFields_normalization ⟨some 250, some 5, some "Home State", some "snack"⟩).2.1
    5 rfl (by norm_num)

/-- C3 counterexample: on the empty record sequence the analysis does throw,
but the thrown error is the generic `TypeError` raised by
`Object.keys(...).reduce(...)` on an empty key array — not an
EmptyDatasetError-class typed error as the claim states. -/
theorem analyzeBusinessPatterns_empty_counterexample :
    analyzeBusinessPatterns [] (calculateTaxes []) = Except.error JsErr.typeError
    ∧ JsErr.typeError ≠ JsErr.emptyDataset :=
  ⟨rfl, by decide⟩

/-- C3 (amended): when the record sequence is empty, `analyzeBusinessPatterns`
fails — it throws the generic `TypeError` produced by reducing the empty key
array of `salesByTaxSlab` with no initial value, before `averageTransaction`
is ever computed — rather than returning or propagating NaN or Infinity; the
error is not a dedicated EmptyDatasetError-class error, so the caller can only
handle it as an untyped exception. -/
theorem analyzeBusinessPatterns_empty (salesData : List RawSale)
    (h : salesData = []) :
    analyzeBusinessPatterns salesData (calculateTaxes salesData)
        = Except.error JsErr.typeError
    ∧ ∀ a : BusinessAnalysis,
        analyzeBusinessPatterns salesData (calculateTaxes salesData) ≠ Except.ok a := by
  subst h
  refine ⟨rfl, fun a h' => ?_⟩
  rw [show analyzeBusinessPatterns [] (calculateTaxes [])
      = Except.error JsErr.typeError from rfl] at h'
  exact Except.noConfusion h'

/-- C3 witness: the amended statement evaluated at the empty sequence. -/
theorem analyzeBusinessPatterns_empty_witness :
    analyzeBusinessPatterns [] (calculateTaxes []) = Except.error JsErr.typeError :=
  (analyzeBusinessPatterns_empty [] rfl).1

/-- C4 counterexample: a reachable tax calculation with `totalSales = 0` and
`totalTax = 18 > 0` (an interstate sale of 100 at rate 18 cancelled by a
return of -100 at rate 0).  Only the `igst > 0` check and the tax-burden check
can fire (the slab count is 2), yet the result is "Medium": the tax-burden
condition contributed 1 at `totalSales = 0`, because in JavaScript
`18 / 0` is `Infinity`, which exceeds `0.15`.  Under the claim — third
condition contributes 0 when `totalSales` is 0 — the score would be 1,
mapping to "Low". -/
theorem assessComplianceRisk_zero_sales_counterexample :
    (calculateTaxes c4Data).totalSales = 0
    ∧ 0 < (calculateTaxes c4Data).igst
    ∧ (calculateTaxes c4Data).salesByTaxSlab.length ≤ 3
    ∧ assessComplianceRisk c4Data (calculateTaxes c4Data) = "Medium" := by
  have hrate1 : saleTaxRate ⟨some 100, some 18, some "Other", none⟩ = 18 := rfl
  have hrate2 : saleTaxRate ⟨some (-100), none, some "Other", some "essential goods"⟩
      = 0 := rfl
  have hcalc : calculateTaxes c4Data
      = ⟨0, 0, 0, 18, 18, [("Other", (0 : ℚ))], [((18 : ℚ), (100 : ℚ)), (0, -100)]⟩ := by
    simp only [calculateTaxes, c4Data, initTaxAcc, taxStep, saleAmount, saleState, jsOrNum,
      jsOrStr, List.foldl, bumpEntry, hrate1, hrate2, String.reduceEq, reduceIte]
    norm_num [TaxCalculation.mk.injEq]
  rw [hcalc]
  norm_num [assessComplianceRisk, jsDivGt]

/-- C4 (amended): for every tax calculation, the compliance-risk score starts
at 0 and adds 1 for each of exactly three independent conditions — `igst > 0`,
more than 3 distinct tax slabs, and a high tax burden, where the third
condition follows JavaScript division semantics: for `totalSales ≠ 0` it is
`totalTax / totalSales > 0.15`, and for `totalSales = 0` it contributes 1
exactly when `totalTax > 0` (division yields Infinity) and 0 otherwise.  The
score maps to Low for 0-1, Medium for 2-3 and High for 4 or more; since the
maximum score is 3, "High" is unreachable. -/
theorem assessComplianceRisk_spec (salesData : List RawSale) (c : TaxCalculation) :
    assessComplianceRisk salesData c = specRiskLabel (specRiskScore c)
    ∧ specRiskScore c ≤ 3
    ∧ assessComplianceRisk salesData c ≠ "High" := by
  have hiff : (if c.totalSales = 0 then 0 < c.totalTax
      else (15 / 100 : ℚ) < c.totalTax / c.totalSales)
      ↔ jsDivGt c.totalTax c.totalSales (15 / 100) = true := by
    unfold jsDivGt
    split_ifs <;> simp
  have h2 : specRiskScore c ≤ 3 := by
    unfold specRiskScore
    split_ifs <;> omega
  have h1 : assessComplianceRisk salesData c = specRiskLabel (specRiskScore c) := by
    by_cases hb1 : 0 < c.igst <;>
      by_cases hb2 : 3 < c.salesByTaxSlab.length <;>
      by_cases hb3 : jsDivGt c.totalTax c.totalSales (15 / 100) = true <;>
      simp [assessComplianceRisk, specRiskScore, specRiskLabel, hb1, hb2, hb3, hiff]
  refine ⟨h1, h2, ?_⟩
  rw [h1]
  unfold specRiskLabel
  split_ifs <;> decide

/-- C9: Aggregating the empty record sequence yields a result with all five
numeric fields zero and empty state and slab maps, for both `calculateTaxes`
and `calculateGST`; both functions are total, so no error is possible. -/
theorem calculateTaxes_empty :
    calculateTaxes [] = ⟨0, 0, 0, 0, 0, [], []⟩
    ∧ calculateGST [] = ⟨0, 0, 0, 0, 0, [], []⟩ := by
  constructor <;> · simp only [calculateTaxes, calculateGST, List.foldl, initTaxAcc]
                    norm_num

theorem strContains_refl (s : String) : StrContains s s :=
  ⟨[], [], by simp⟩

theorem strContains_append_left (x : String) {s mid : String}
    (h : StrContains s mid) : StrContains (x ++ s) mid := by
  obtain ⟨p, q, hp⟩ := h
  refine ⟨x.data ++ p, q, ?_⟩
  rw [show (x ++ s).data = x.data ++ s.data from rfl, hp]
  simp

theorem strContains_append_right {s mid : String} (h : StrContains s mid)
    (y : String) : StrContains (s ++ y) mid := by
  obtain ⟨p, q, hp⟩ := h
  refine ⟨p, q ++ y.data, ?_⟩
  rw [show (s ++ y).data = s.data ++ y.data from rfl, hp]
  simp

/-- C6: for every current date (with a valid 0-based month index) and every
business analysis, the compliance check returns `applicableReturns` equal to
exactly [GSTR-1, GSTR-3B]; its deadlines place GSTR-1 on the 10th of the month
following the current date, and both GSTR-3B and the payment on the 20th of
that same following month; `specialSchemes` contains "Composition Scheme" iff
`businessSize = "Micro"`; and `riskAreas` contains both "Interstate Sales" and
"Multiple Tax Rates" iff `complianceRisk ≠ "Low"`. -/
theorem checkCompliance_spec (now : JsMonthDate) (a : BusinessAnalysis)
    (hm0 : 0 ≤ now.month) (hm1 : now.month < 12) :
    (checkCompliance now a).applicableReturns = ["GSTR-1", "GSTR-3B"]
    ∧ (checkCompliance now a).deadlines.gstr1
        = ⟨(specFollowingMonth now).year, (specFollowingMonth now).month, 10⟩
    ∧ (checkCompliance now a).deadlines.gstr3b
        = ⟨(specFollowingMonth now).year, (specFollowingMonth now).month, 20⟩
    ∧ (checkCompliance now a).deadlines.payment = (checkCompliance now a).deadlines.gstr3b
    ∧ ("Composition Scheme" ∈ (checkCompliance now a).specialSchemes
        ↔ a.businessSize = "Micro")
    ∧ (("Interstate Sales" ∈ (checkCompliance now a).riskAreas
          ∧ "Multiple Tax Rates" ∈ (checkCompliance now a).riskAreas)
        ↔ a.complianceRisk ≠ "Low") := by
  have hfm : 0 ≤ (specFollowingMonth now).month ∧ (specFollowingMonth now).month < 12 := by
    unfold specFollowingMonth
    by_cases hm : now.month = 11 <;> simp [hm] <;> omega
  have hnext : jsMakeDate now.year (now.month + 1) 1
      = ⟨(specFollowingMonth now).year, (specFollowingMonth now).month, 1⟩ := by
    unfold jsMakeDate specFollowingMonth
    by_cases hm : now.month = 11
    · simp [hm]
    · have hlt : now.month + 1 < 12 := by omega
      have hge : 0 ≤ now.month + 1 := by omega
      simp [hm, Int.ediv_eq_zero_of_lt hge hlt, Int.emod_eq_of_lt hge hlt]
  have hnorm : ∀ d : Int, jsMakeDate (specFollowingMonth now).year
      (specFollowingMonth now).month d
      = ⟨(specFollowingMonth now).year, (specFollowingMonth now).month, d⟩ := by
    intro d
    unfold jsMakeDate
    simp [Int.ediv_eq_zero_of_lt hfm.1 hfm.2, Int.emod_eq_of_lt hfm.1 hfm.2]
  have hdl : calculateDeadlines now
      = ⟨⟨(specFollowingMonth now).year, (specFollowingMonth now).month, 10⟩,
         ⟨(specFollowingMonth now).year, (specFollowingMonth now).month, 20⟩,
         ⟨(specFollowingMonth now).year, (specFollowingMonth now).month, 20⟩⟩ := by
    unfold calculateDeadlines
    rw [hnext]
    simp [hnorm]
  refine ⟨rfl, ?_, ?_, ?_, ?_, ?_⟩
  · show (calculateDeadlines now).gstr1 = _
    rw [hdl]
  · show (calculateDeadlines now).gstr3b = _
    rw [hdl]
  · show (calculateDeadlines now).payment = (calculateDeadlines now).gstr3b
    rw [hdl]
  · by_cases hmi : a.businessSize = "Micro" <;> simp [checkCompliance, hmi]
  · by_cases hlo : a.complianceRisk = "Low" <;> simp [checkCompliance, hlo]

/-- C6 witness: the compliance check evaluated in December 2025 (month index
11, exercising the year rollover) for a concrete analysis. -/
theorem checkCompliance_spec_witness :
    (checkCompliance ⟨2025, 11⟩ c6A).applicableReturns = ["GSTR-1", "GSTR-3B"]
    ∧ (checkCompliance ⟨2025, 11⟩ c6A).deadlines.gstr1
        = ⟨(specFollowingMonth ⟨2025, 11⟩).year, (specFollowingMonth ⟨2025, 11⟩).month, 10⟩
    ∧ (checkCompliance ⟨2025, 11⟩ c6A).deadlines.gstr3b
        = ⟨(specFollowingMonth ⟨2025, 11⟩).year, (specFollowingMonth ⟨2025, 11⟩).month, 20⟩
    ∧ (checkCompliance ⟨2025, 11⟩ c6A).deadlines.payment
        = (checkCompliance ⟨2025, 11⟩ c6A).deadlines.gstr3b
    ∧ ("Composition Scheme" ∈ (checkCompliance ⟨2025, 11⟩ c6A).specialSchemes
        ↔ c6A.businessSize = "Micro")
    ∧ (("Interstate Sales" ∈ (checkCompliance ⟨2025, 11⟩ c6A).riskAreas
          ∧ "Multiple Tax Rates" ∈ (checkCompliance ⟨2025, 11⟩ c6A).riskAreas)
        ↔ c6A.complianceRisk ≠ "Low") :=
  checkCompliance_spec ⟨2025, 11⟩ c6A (by decide) (by decide)

/-- A `filterMap` over `range N` whose function yields `some` at exactly one
index collapses to the singleton of that value. -/
theorem filterMap_range_single {β : Type} (f : ℕ → Option β) (x : β) :
    ∀ N j, j < N → f j = some x → (∀ i, i < N → i ≠ j → f i = none) →
      (List.range N).filterMap f = [x] := by
  intro N
  induction N with
  | zero => intro j hj; omega
  | succ N IH =>
    intro j hj hfj hother
    rw [List.range_succ, List.filterMap_append]
    by_cases hjN : j = N
    · have h1 : (List.range N).filterMap f = [] := by
        rw [List.filterMap_eq_nil_iff]
        intro i hi
        have hiN : i < N := List.mem_range.mp hi
        exact hother i (Nat.lt_succ_of_lt hiN) (by omega)
      rw [h1]
      subst hjN
      simp [List.filterMap_cons, hfj]
    · have hjlt : j < N := by omega
      have h2 := IH j hjlt hfj (fun i hi hij => hother i (Nat.lt_succ_of_lt hi) hij)
      have h3 : f N = none := hother N (Nat.lt_succ_self N) (fun hNj => hjN hNj.symm)
      rw [h2]
      simp [List.filterMap_cons, h3]

/-- C7: for every query and `maxResults` bound, `retrieveRelevantKnowledge`
returns at most `maxResults` (document, score) pairs, ordered descending by
TF-IDF relevance score, with every zero-score document excluded entirely (all
returned scores are positive); if the query scores 0 against every corpus
document (as a term absent from all documents does), the result is empty; and
if exactly one document scores positively (as with a term present in exactly
one document), that document is returned first, with its positive score. -/
theorem retrieveRelevantKnowledge_spec (tfidfs : String → ℕ → ℚ) (query : String)
    (maxResults : ℕ) :
    (retrieveRelevantKnowledge tfidfs query maxResults).length ≤ maxResults
    ∧ List.Sorted relDesc (retrieveRelevantKnowledge tfidfs query maxResults)
    ∧ (∀ p ∈ retrieveRelevantKnowledge tfidfs query maxResults, 0 < p.2)
    ∧ ((∀ i, i < gstKnowledgeDocuments.length → tfidfs query i = 0) →
        retrieveRelevantKnowledge tfidfs query maxResults = [])
    ∧ (∀ j (hj : j < gstKnowledgeDocuments.length), 0 < tfidfs query j →
        (∀ i, i < gstKnowledgeDocuments.length → i ≠ j → tfidfs query i = 0) →
        0 < maxResults →
        (retrieveRelevantKnowledge tfidfs query maxResults).head?
          = some (gstKnowledgeDocuments.get ⟨j, hj⟩, tfidfs query j)) := by
  refine ⟨?_, ?_, ?_, ?_, ?_⟩
  · simp only [retrieveRelevantKnowledge, List.length_take]
    exact Nat.min_le_left _ _
  · exact List.Pairwise.sublist (List.take_sublist _ _)
      (List.sorted_insertionSort relDesc _)
  · intro p hp
    have hp1 : p ∈ List.insertionSort relDesc
        ((List.range gstKnowledgeDocuments.length).filterMap fun i =>
          if 0 < tfidfs query i then
            gstKnowledgeDocuments[i]?.map (fun doc => (doc, tfidfs query i))
          else none) := List.take_subset _ _ hp
    have hp2 := (List.perm_insertionSort relDesc _).mem_iff.mp hp1
    obtain ⟨i, hi, hfi⟩ := List.mem_filterMap.mp hp2
    by_cases hpos : 0 < tfidfs query i
    · rw [if_pos hpos] at hfi
      have hiN : i < gstKnowledgeDocuments.length := List.mem_range.mp hi
      rw [List.getElem?_eq_getElem hiN] at hfi
      simp only [Option.map_some', Option.some.injEq] at hfi
      rw [← hfi]
      exact hpos
    · rw [if_neg hpos] at hfi
      exact absurd hfi (Option.noConfusion)
  · intro hzero
    have hres : ((List.range gstKnowledgeDocuments.length).filterMap fun i =>
        if 0 < tfidfs query i then
          gstKnowledgeDocuments[i]?.map (fun doc => (doc, tfidfs query i))
        else none) = [] := by
      rw [List.filterMap_eq_nil_iff]
      intro i hi
      rw [hzero i (List.mem_range.mp hi), if_neg (lt_irrefl 0)]
    simp only [retrieveRelevantKnowledge, hres]
    simp [List.insertionSort]
  · intro j hj hjpos hother hmax
    have hres : ((List.range gstKnowledgeDocuments.length).filterMap fun i =>
        if 0 < tfidfs query i then
          gstKnowledgeDocuments[i]?.map (fun doc => (doc, tfidfs query i))
        else none) = [(gstKnowledgeDocuments.get ⟨j, hj⟩, tfidfs query j)] := by
      apply filterMap_range_single _ _ _ j hj
      · rw [if_pos hjpos, List.getElem?_eq_getElem hj]
        rfl
      · intro i hi hij
        rw [hother i hi hij]
        simp
    simp only [retrieveRelevantKnowledge, hres]
    cases maxResults with
    | zero => omega
    | succ n => rfl

/-- C7 witness: a measure that is positive for exactly document index 1 (the
GSTR-1 deadline document), evaluated at the default bound 3. -/
theorem retrieveRelevantKnowledge_spec_witness :
    (retrieveRelevantKnowledge c7tfidfs "gstr1 deadline" 3).head?
      = some (gstKnowledgeDocuments.get ⟨1, by decide⟩, c7tfidfs "gstr1 deadline" 1) :=
  (retrieveRelevantKnowledge_spec c7tfidfs "gstr1 deadline" 3).2.2.2.2 1
    (by decide) (by decide)
    (fun i _ hij => by simp [c7tfidfs, hij]) (by decide)

/-- C8: whenever the text-generation collaborator is absent, or present but
failing on the composed prompt, `generateCompliancePlan` returns exactly the
deterministic fallback plan built from the computed fields; that plan is
non-empty and contains the rendered GSTR-1, GSTR-3B and payment deadlines and
the joined special-schemes list; and since the function is total and its
result in these cases is independent of the failure, no collaborator failure
is surfaced to the caller. -/
theorem generateCompliancePlan_fallback (genAI : Option (String → Except Unit String))
    (render : JsDate → String) (a : BusinessAnalysis) (c : ComplianceCheck)
    (h : genAI = none
      ∨ ∃ model e, genAI = some model
          ∧ model (buildPlanPrompt a c) = Except.error e) :
    generateCompliancePlan genAI render a c = fallbackPlan render a c
    ∧ fallbackPlan render a c ≠ ""
    ∧ StrContains (fallbackPlan render a c) (render c.deadlines.gstr1)
    ∧ StrContains (fallbackPlan render a c) (render c.deadlines.gstr3b)
    ∧ StrContains (fallbackPlan render a c) (render c.deadlines.payment)
    ∧ StrContains (fallbackPlan render a c) (String.intercalate ", " c.specialSchemes) := by
  refine ⟨?_, ?_, ?_, ?_, ?_, ?_⟩
  · rcases h with h | ⟨model, e, hm, herr⟩
    · rw [h]; rfl
    · rw [hm]; simp [generateCompliancePlan, herr]
  · intro hempty
    have hlen := congrArg String.length hempty
    simp only [fallbackPlan, String.length_append] at hlen
    have h20 : ("COMPLIANCE PLAN FOR ").length = 20 := rfl
    have h0 : ("" : String).length = 0 := rfl
    rw [h0] at hlen
    omega
  all_goals
    unfold fallbackPlan
    repeat
      first
      | exact strContains_refl _
      | exact strContains_append_left _ (strContains_refl _)
      | apply strContains_append_right

/-- C8 witness: the fallback theorem with the collaborator absent, at concrete
analysis, check and rendering. -/
theorem generateCompliancePlan_fallback_witness :
    generateCompliancePlan none c8render c8A c8C = fallbackPlan c8render c8A c8C
    ∧ fallbackPlan c8render c8A c8C ≠ ""
    ∧ StrContains (fallbackPlan c8render c8A c8C) (c8render c8C.deadlines.gstr1)
    ∧ StrContains (fallbackPlan c8render c8A c8C) (c8render c8C.deadlines.gstr3b)
    ∧ StrContains (fallbackPlan c8render c8A c8C) (c8render c8C.deadlines.payment)
    ∧ StrContains (fallbackPlan c8render c8A c8C)
        (String.intercalate ", " c8C.specialSchemes) :=
  generateCompliancePlan_fallback none c8render c8A c8C (Or.inl rfl)

/-- C10: the compliance-check result carries an `itcEligibility` flag that is
true if and only if the analysis's `complianceRisk` is "Low", for every
current date and every business analysis. -/
theorem itcEligibility_iff_low_risk (now : JsMonthDate) (a : BusinessAnalysis) :
    (checkCompliance now a).itcEligibility = true ↔ a.complianceRisk = "Low" := by
  simp [checkCompliance]

end GstApp
